import Mathlib

/-
  Verification of the AI reply-assistant pipeline.

  The repository is a TypeScript single-page application.  The parts the
  claims are about are:
    - geminiService: analyzeContext and generateBilingualReply, two calls to
      a hosted model followed by JSON parsing of the response text;
    - the App component: handleGenerateReply (the two-stage pipeline with a
      progress state machine), handleCopyToClipboard, useLocalStorage, the
      theme toggle in the Header;
    - the constants and type files: the enumerations and the select options.

  JavaScript runtime values that flow through the untyped parts of the code
  (everything produced by JSON.parse) are embedded as the inductive Json
  below.  Numbers are embedded as integers: the only numeric comparison the
  code performs is a strict equality with 0, on which the embedding agrees
  with the JavaScript semantics.  The outcome of one generateContent call
  followed by JSON.parse of its text is embedded as the oracle type
  AIOutcome, so every theorem quantifies over whatever the model may return.
-/

namespace TeacherAssistant

/-- A JavaScript value as produced by JSON.parse. -/
inductive Json where
  | null
  | bool (b : Bool)
  | num (n : Int)
  | str (s : String)
  | arr (elems : List Json)
  | obj (fields : List (String × Json))

/-- Enumeration MessageType from the types file. -/
inductive MessageType where
  | NEW_STUDENT | CURRENT_STUDENT | ABSENT_STUDENT | RESCHEDULE | PAYMENT | GENERAL
deriving DecidableEq

/-- The string value of each MessageType member, as in the TypeScript enum. -/
def MessageType.val : MessageType → String
  | .NEW_STUDENT => "New student inquiry"
  | .CURRENT_STUDENT => "Current student"
  | .ABSENT_STUDENT => "Absent student"
  | .RESCHEDULE => "Reschedule request"
  | .PAYMENT => "Payment inquiry"
  | .GENERAL => "General question"

/-- Object.values of the MessageType enum, in declaration order. -/
def MessageType.values : List String :=
  [MessageType.NEW_STUDENT.val, MessageType.CURRENT_STUDENT.val,
   MessageType.ABSENT_STUDENT.val, MessageType.RESCHEDULE.val,
   MessageType.PAYMENT.val, MessageType.GENERAL.val]

/-- Enumeration ReplyTone from the types file. -/
inductive ReplyTone where
  | FORMAL | FRIENDLY | WARM_MOTIVATIONAL | BRIEF_DIRECT | ISLAMIC | FOR_KIDS
deriving DecidableEq

/-- The string value of each ReplyTone member, as in the TypeScript enum. -/
def ReplyTone.val : ReplyTone → String
  | .FORMAL => "Professional"
  | .FRIENDLY => "Friendly"
  | .WARM_MOTIVATIONAL => "Warm & Motivational"
  | .BRIEF_DIRECT => "Brief & Direct"
  | .ISLAMIC => "Islamic (Spiritual)"
  | .FOR_KIDS => "For Kids"

/-- Enumeration IntegrationPlatform from the types file. -/
inductive IntegrationPlatform where
  | WHATSAPP | EMAIL | GENERIC
deriving DecidableEq

/-- The string value of each IntegrationPlatform member. -/
def IntegrationPlatform.val : IntegrationPlatform → String
  | .WHATSAPP => "WhatsApp"
  | .EMAIL => "Email"
  | .GENERIC => "Generic Chat"

/-- Enumeration Sentiment from the types file. -/
inductive Sentiment where
  | POSITIVE | NEUTRAL | NEGATIVE | APOLOGETIC | ENTHUSIASTIC | INQUIRY
deriving DecidableEq

/-- The string value of each Sentiment member. -/
def Sentiment.val : Sentiment → String
  | .POSITIVE => "Positive"
  | .NEUTRAL => "Neutral"
  | .NEGATIVE => "Negative"
  | .APOLOGETIC => "Apologetic"
  | .ENTHUSIASTIC => "Enthusiastic"
  | .INQUIRY => "Inquiry"

/-- Object.values of the Sentiment enum, in declaration order. -/
def Sentiment.values : List String :=
  [Sentiment.POSITIVE.val, Sentiment.NEUTRAL.val, Sentiment.NEGATIVE.val,
   Sentiment.APOLOGETIC.val, Sentiment.ENTHUSIASTIC.val, Sentiment.INQUIRY.val]

/-- The detectedLanguage field of AnalyzedContext ranges over en, ar, unknown. -/
inductive DetectedLanguage where
  | en | ar | unknown
deriving DecidableEq

/-- The string value of each DetectedLanguage member. -/
def DetectedLanguage.val : DetectedLanguage → String
  | .en => "en"
  | .ar => "ar"
  | .unknown => "unknown"

/-- The Student record from the types file. -/
structure Student where
  id : String
  name : String
  lastContactedAt : String
  preferredTone : ReplyTone
  totalMessages : Nat
deriving DecidableEq

/-- The theme field of AppSettings ranges over light and dark. -/
inductive Theme where
  | light | dark
deriving DecidableEq

/-- The string value of each Theme member. -/
def Theme.val : Theme → String
  | .light => "light"
  | .dark => "dark"

/-- The AppSettings record from the types file. -/
structure AppSettings where
  teacherName : String
  signature : String
  platform : IntegrationPlatform
  theme : Theme
deriving DecidableEq

/-- The typed AnalyzedContext record from geminiService. -/
structure AnalyzedContext where
  messageType : MessageType
  sentiment : Sentiment
  detectedLanguage : DetectedLanguage
deriving DecidableEq

/-- The JavaScript object a typed AnalyzedContext denotes at runtime. -/
def encodeAnalyzedContext (c : AnalyzedContext) : Json :=
  .obj [("messageType", .str c.messageType.val),
        ("sentiment", .str c.sentiment.val),
        ("detectedLanguage", .str c.detectedLanguage.val)]

/-- Property lookup in an object field list.  JSON.parse keeps the last
occurrence of a duplicated key, so the lookup scans later fields first. -/
def jsLookup : List (String × Json) → String → Option Json
  | [], _ => none
  | (k2, v) :: rest, k =>
    match jsLookup rest k with
    | some v2 => some v2
    | none => if k2 = k then some v else none

/-- JavaScript property access base.k for a base produced by JSON.parse:
it throws a TypeError when the base is null, yields the field when the base
is an object that has it, and yields undefined (embedded as none)
otherwise.  The string and array properties the code reads are handled by
jsLengthProp below. -/
def jsGetField : Json → String → Except Unit (Option Json)
  | .null, _ => .error ()
  | .obj fs, k => .ok (jsLookup fs k)
  | _, _ => .ok none

/-- JavaScript truthiness of a possibly-undefined value.  JSON has no NaN,
so a number is falsy exactly when it is 0. -/
def jsTruthy : Option Json → Bool
  | none => false
  | some .null => false
  | some (.bool b) => b
  | some (.num n) => n != 0
  | some (.str s) => s ≠ ""
  | some (.arr _) => true
  | some (.obj _) => true

/-- The value of base.length for a truthy base: the element count of an
array, the length of a string, the length field of an object when present,
and undefined otherwise.  JavaScript counts UTF-16 units where this
embedding counts code points; the code only compares the result with 0, and
the two counts are 0 together. -/
def jsLengthProp : Json → Option Json
  | .arr xs => some (.num xs.length)
  | .str s => some (.num s.length)
  | .obj fs => jsLookup fs "length"
  | _ => none

/-- The strict comparison v === 0: true exactly for the number 0. -/
def jsStrictEqZero : Option Json → Bool
  | some (.num n) => n == 0
  | _ => false

/-- The outcome of one ai.models.generateContent call followed by
JSON.parse of the trimmed response text, as observed inside the try block:
the awaited call may reject (networkError), the parse of the returned text
may throw (parseError, which also covers a response with no text at all),
or the parse succeeds with some JavaScript value. -/
inductive AIOutcome where
  | networkError
  | parseError
  | parsed (j : Json)

/-- The fixed fallback object built in the catch branch of analyzeContext:
messageType GENERAL, sentiment NEUTRAL, detectedLanguage unknown. -/
def defaultAnalyzedContextJson : Json :=
  encodeAnalyzedContext ⟨.GENERAL, .NEUTRAL, .unknown⟩

/-- The try block of analyzeContext: await the model call and JSON.parse its
text.  Any rejection or parse failure is a throw. -/
def analyzeContextBody (call : AIOutcome) : Except Unit Json :=
  match call with
  | .networkError => .error ()
  | .parseError => .error ()
  | .parsed j => .ok j

/-- analyzeContext from geminiService: the try block wrapped in a catch that
logs and returns the fixed fallback object.  The parsed value is returned
verbatim, with no schema validation of its fields.  The error type records
that a raised error would carry a message; the theorems show the error
branch is never taken. -/
def analyzeContext (studentMessage : String) (call : AIOutcome) :
    Except String Json :=
  match analyzeContextBody call with
  | .ok j => .ok j
  | .error _ =>
    let _ := studentMessage
    .ok defaultAnalyzedContextJson

/-- Whether a JavaScript value conforms to the contextAnalysisSchema of
geminiService: an object whose messageType, sentiment and detectedLanguage
fields are strings drawn from the respective closed enumerations. -/
def conformsAnalyzedContext : Json → Bool
  | .obj fs =>
    (match jsLookup fs "messageType" with
     | some (.str s) => MessageType.values.contains s
     | _ => false) &&
    (match jsLookup fs "sentiment" with
     | some (.str s) => Sentiment.values.contains s
     | _ => false) &&
    (match jsLookup fs "detectedLanguage" with
     | some (.str s) => ["en", "ar", "unknown"].contains s
     | _ => false)
  | _ => false

/-- The runtime shape of the object generateBilingualReply returns.  The
TypeScript GeneratedReply type promises a sentence array and a string, but
the code copies the parsed fields without validating them, so the fields
are arbitrary JavaScript values. -/
structure GeneratedReply where
  sentences : Json
  toneDescription : Json

/-- The fixed user-facing message of the error generateBilingualReply
raises on every failure. -/
def genericReplyError : String :=
  "Failed to generate a reply. The model may be unable to process this request. Please try again or rephrase."

/-- The try block of generateBilingualReply.  Building the prompt reads
context.messageType and context.sentiment, which throws a TypeError when
the context is null; then the model call is awaited and its text parsed;
then the guard rejects a falsy sentences field and a sentences value whose
length is strictly equal to 0; finally the result object is assembled,
with the toneDescription falling back to a fixed string when falsy. -/
def generateBilingualReplyBody (context : Json) (call : AIOutcome) :
    Except Unit GeneratedReply :=
  match jsGetField context "messageType" with
  | .error _ => .error ()
  | .ok _ =>
    match call with
    | .networkError => .error ()
    | .parseError => .error ()
    | .parsed j =>
      match jsGetField j "sentences" with
      | .error _ => .error ()
      | .ok sentencesV =>
        match sentencesV with
        | none => .error ()
        | some s =>
          if jsTruthy (some s) = false then .error ()
          else if jsStrictEqZero (jsLengthProp s) then .error ()
          else
            let tdRaw : Option Json :=
              match jsGetField j "toneDescription" with
              | .error _ => none
              | .ok tv => tv
            let td : Json :=
              match tdRaw with
              | some v => if jsTruthy (some v) then v else .str "⭐ Balanced"
              | none => .str "⭐ Balanced"
            .ok { sentences := s, toneDescription := td }

/-- generateBilingualReply from geminiService: the try block wrapped in a
catch that logs the cause and raises a new error with the fixed generic
user-facing message. -/
def generateBilingualReply (studentMessage : String) (context : Json)
    (tone : ReplyTone) (platform : IntegrationPlatform) (teacherName : String)
    (student : Option Student) (call : AIOutcome) :
    Except String GeneratedReply :=
  let _ := studentMessage
  let _ := tone
  let _ := platform
  let _ := teacherName
  let _ := student
  match generateBilingualReplyBody context call with
  | .ok r => .ok r
  | .error _ => .error genericReplyError

/-- The GenerationProgress record from the types file; an empty object
(every field absent) is the idle state. -/
structure GenerationProgress where
  reading : Option Bool := none
  detecting : Option Bool := none
  drafting : Option Bool := none
  translating : Option Bool := none
  done : Option Bool := none
  error : Option String := none
deriving DecidableEq

/-- The pieces of App component state that handleGenerateReply reads or
writes, together with the closed-over inputs it uses. -/
structure AppState where
  studentMessage : String
  selectedStudentId : Option String
  messageType : Option Json
  replyTone : ReplyTone
  settings : AppSettings
  students : List Student
  detectedContext : Option Json
  isLoading : Bool
  progress : GenerationProgress
  error : Option String
  replySentences : Json
  toneDescription : Json
  currentTip : String

/-- Observable events of one handleGenerateReply invocation, in program
order: each state setter call, the start of each awaited model stage, and
the resolution of the analyzer stage. -/
inductive Ev where
  | setLoading (b : Bool)
  | setErrorEv (e : Option String)
  | setReplySentencesEv (j : Json)
  | setToneDescriptionEv (j : Json)
  | setProgressEv (p : GenerationProgress)
  | callAnalyze (msg : String)
  | analyzeResolved (ctx : Json)
  | callGenerate (msg : String) (ctx : Json)
  | setDetectedContextEv (j : Json)
  | setMessageTypeEv (v : Option Json)
  | setCurrentTipEv

/-- The message of the guard error set when the input message is blank. -/
def emptyMessageError : String := "Please enter a student message."

/-- The fallback text the catch branch uses when the caught error carries
an empty message. -/
def unexpectedError : String := "An unexpected error occurred."

/-- The two setter calls of the catch branch of handleGenerateReply: the
error state receives e.message, or the fallback text when that message is
empty, and the progress object is replaced whole by one holding only the
error message. -/
def catchEvents (m : String) : List Ev :=
  [Ev.setErrorEv (some (if m = "" then unexpectedError else m)),
   Ev.setProgressEv { error := some m }]

/-- Whitespace as stripped by the JavaScript String trim method: blanks,
the common control whitespace and the line terminators. -/
def jsIsWhitespace (c : Char) : Bool :=
  c == ' ' || c == '\t' || c == '\n' || c == '\r' ||
  c == '\u000b' || c == '\u000c' || c == '\u00a0' || c == '\ufeff' ||
  c == '\u2028' || c == '\u2029'

/-- The JavaScript String trim method: strip leading and trailing
whitespace. -/
def jsTrim (s : String) : String :=
  String.mk
    (((s.data.dropWhile jsIsWhitespace).reverse.dropWhile
        jsIsWhitespace).reverse)

/-- The message the invocation works on: the argument when present and
non-empty (a falsy argument falls back), otherwise the current text box
content, as in the expression message or studentMessage. -/
def finalMessageOf (message : Option String) (st : AppState) : String :=
  match message with
  | some m => if m = "" then st.studentMessage else m
  | none => st.studentMessage

/-- handleGenerateReply from the App component, embedded as explicit state
passing plus the event trace of the invocation.  The oracle arguments fix
what each of the two model calls returns; tyErrMsg is the message of the
TypeError a property read on a null context throws (its exact text is
environment specific); newTip is the randomly chosen smart tip. -/
def handleGenerateReply (message : Option String) (st : AppState)
    (analyzeCall replyCall : AIOutcome) (tyErrMsg : String)
    (newTip : String) : AppState × List Ev :=
  let finalMessage := finalMessageOf message st
  if jsTrim finalMessage = "" then
    ({ st with error := some emptyMessageError },
     [Ev.setErrorEv (some emptyMessageError)])
  else
    let st1 : AppState :=
      { st with
        isLoading := true, error := none,
        replySentences := Json.arr [], toneDescription := Json.str "",
        progress := { reading := some true } }
    let ev1 : List Ev :=
      [Ev.setLoading true, Ev.setErrorEv none,
       Ev.setReplySentencesEv (Json.arr []),
       Ev.setToneDescriptionEv (Json.str ""),
       Ev.setProgressEv { reading := some true }]
    let p2 : GenerationProgress := { reading := some false, detecting := some true }
    let st2 : AppState := { st1 with progress := p2 }
    match analyzeContext finalMessage analyzeCall with
    | .error m =>
      -- dead branch: the analyzer swallows its own failures; kept so the
      -- surrounding catch is embedded faithfully
      ({ st2 with
         error := some (if m = "" then unexpectedError else m),
         progress := { error := some m }, isLoading := false },
       ev1 ++ [Ev.setProgressEv p2, Ev.callAnalyze finalMessage]
           ++ catchEvents m ++ [Ev.setLoading false])
    | .ok ctx =>
      let st3 : AppState := { st2 with detectedContext := some ctx }
      match jsGetField ctx "messageType" with
      | .error _ =>
        -- the context is null: reading context.messageType throws inside
        -- the try block and the catch runs
        ({ st3 with
           error := some (if tyErrMsg = "" then unexpectedError else tyErrMsg),
           progress := { error := some tyErrMsg }, isLoading := false },
         ev1 ++ [Ev.setProgressEv p2, Ev.callAnalyze finalMessage,
           Ev.analyzeResolved ctx, Ev.setDetectedContextEv ctx]
             ++ catchEvents tyErrMsg ++ [Ev.setLoading false])
      | .ok mt =>
        let st4 : AppState := { st3 with messageType := mt }
        let p3 : GenerationProgress :=
          { p2 with detecting := some false, drafting := some true }
        let st5 : AppState := { st4 with progress := p3 }
        let selectedStudent :=
          List.find? (fun s => st.selectedStudentId == some s.id) st.students
        match generateBilingualReply finalMessage ctx st.replyTone
            st.settings.platform st.settings.teacherName selectedStudent
            replyCall with
        | .error m =>
          ({ st5 with
             error := some (if m = "" then unexpectedError else m),
             progress := { error := some m }, isLoading := false },
           ev1 ++ [Ev.setProgressEv p2, Ev.callAnalyze finalMessage,
             Ev.analyzeResolved ctx, Ev.setDetectedContextEv ctx,
             Ev.setMessageTypeEv mt, Ev.setProgressEv p3,
             Ev.callGenerate finalMessage ctx]
               ++ catchEvents m ++ [Ev.setLoading false])
        | .ok result =>
          let p4 : GenerationProgress :=
            { p3 with drafting := some false, done := some true }
          ({ st5 with
             progress := p4, replySentences := result.sentences,
             toneDescription := result.toneDescription,
             currentTip := newTip, isLoading := false },
           ev1 ++ [Ev.setProgressEv p2, Ev.callAnalyze finalMessage,
             Ev.analyzeResolved ctx, Ev.setDetectedContextEv ctx,
             Ev.setMessageTypeEv mt, Ev.setProgressEv p3,
             Ev.callGenerate finalMessage ctx, Ev.setProgressEv p4,
             Ev.setReplySentencesEv result.sentences,
             Ev.setToneDescriptionEv result.toneDescription,
             Ev.setCurrentTipEv, Ev.setLoading false])

/-- The sequence of values the progress state takes during one invocation,
read off the event trace. -/
def progressSets (tr : List Ev) : List GenerationProgress :=
  tr.filterMap (fun e =>
    match e with
    | Ev.setProgressEv p => some p
    | _ => none)

/-- The reading stage of the progress state machine. -/
def progressReading : GenerationProgress := { reading := some true }

/-- The detecting stage of the progress state machine. -/
def progressDetecting : GenerationProgress :=
  { reading := some false, detecting := some true }

/-- The drafting stage of the progress state machine. -/
def progressDrafting : GenerationProgress :=
  { reading := some false, detecting := some false, drafting := some true }

/-- The done stage of the progress state machine. -/
def progressDone : GenerationProgress :=
  { reading := some false, detecting := some false, drafting := some false,
    done := some true }

/-- The error state of the progress state machine, holding the message of
the caught error. -/
def progressError (m : String) : GenerationProgress := { error := some m }

/-- handleCopyToClipboard from the App component: writeText returns a
promise; the attached then handler records the copy status on fulfilment,
and a rejected write has no handler, so nothing surfaces as a throw to the
caller.  The oracle argument fixes how the clipboard write settles. -/
inductive ClipboardOutcome where
  | fulfilled
  | rejected

/-- The copy status value recorded after a successful copy. -/
inductive CopyLang where
  | ar | en
deriving DecidableEq

/-- handleCopyToClipboard: the embedding returns the new copy status; the
error type records that a raised error would carry a message, and the
theorem shows the error branch is never taken. -/
def handleCopyToClipboard (text : String) (id : String) (lang : CopyLang)
    (clip : ClipboardOutcome) (copyStatus : Option (String × CopyLang)) :
    Except String (Option (String × CopyLang)) :=
  let _ := text
  match clip with
  | .fulfilled => .ok (some (id, lang))
  | .rejected => .ok copyStatus

/-- Local storage, embedded as a list of key-value pairs holding the
structured value: the code stores JSON.stringify of the value and reads it
back through JSON.parse, a pair of inverse platform built-ins on JSON
values, so the string layer is elided. -/
def Store : Type := List (String × Json)

/-- window.localStorage.getItem followed by JSON.parse, as in the
initializer of useLocalStorage. -/
def storeGet (store : Store) (k : String) : Option Json :=
  (List.find? (fun p => p.1 = k) store).map (fun p => p.2)

/-- window.localStorage.setItem with the serialized value. -/
def storeSet (store : Store) (k : String) (v : Json) : Store :=
  (k, v) :: List.filter (fun p => ¬ p.1 = k) store

/-- The lazy initializer of useLocalStorage: parse the stored item when the
key is present, otherwise use the initial value. -/
def useLocalStorageInit (store : Store) (key : String) (initialValue : Json) :
    Json :=
  match storeGet store key with
  | some j => j
  | none => initialValue

/-- The JavaScript object an AppSettings record denotes at runtime, the
shape JSON.stringify serializes. -/
def encodeSettings (s : AppSettings) : Json :=
  .obj [("teacherName", .str s.teacherName), ("signature", .str s.signature),
        ("platform", .str s.platform.val), ("theme", .str s.theme.val)]

/-- The setValue path of useLocalStorage when called with an updater
function, as the Header theme toggle does: the updater is applied to the
stored value and the result is both kept in state and written to storage. -/
def useLocalStorageSetWith (store : Store) (key : String)
    (storedValue : AppSettings) (f : AppSettings → AppSettings) :
    Store × AppSettings :=
  let valueToStore := f storedValue
  (storeSet store key (encodeSettings valueToStore), valueToStore)

/-- The updater the Header theme toggle passes to setSettings. -/
def toggleTheme (s : AppSettings) : AppSettings :=
  { s with theme := if s.theme = Theme.dark then Theme.light else Theme.dark }

/-- An entry of a select option list from the constants file. -/
structure SelectOption (α : Type) where
  value : α
  label : String

/-- TONE_OPTIONS from the constants file. -/
def TONE_OPTIONS : List (SelectOption ReplyTone) :=
  [⟨.FRIENDLY, "😊 Friendly"⟩,
   ⟨.WARM_MOTIVATIONAL, "☀️ Warm & Motivational"⟩,
   ⟨.FORMAL, "👔 Professional"⟩,
   ⟨.BRIEF_DIRECT, "⚡ Brief & Direct"⟩,
   ⟨.ISLAMIC, "🕌 Islamic (Spiritual)"⟩,
   ⟨.FOR_KIDS, "🧸 For Kids"⟩]

/-- PLATFORM_OPTIONS from the constants file. -/
def PLATFORM_OPTIONS : List (SelectOption IntegrationPlatform) :=
  [⟨.WHATSAPP, "WhatsApp"⟩,
   ⟨.EMAIL, "Email"⟩,
   ⟨.GENERIC, "Generic Chat"⟩]

/-- MESSAGE_TYPE_OPTIONS from the constants file. -/
def MESSAGE_TYPE_OPTIONS : List (SelectOption MessageType) :=
  [⟨.NEW_STUDENT, "🟢 New student inquiry"⟩,
   ⟨.CURRENT_STUDENT, "🟠 Current student message"⟩,
   ⟨.ABSENT_STUDENT, "🔵 Absent student notification"⟩,
   ⟨.RESCHEDULE, "🟣 Reschedule request"⟩,
   ⟨.PAYMENT, "💰 Payment inquiry"⟩,
   ⟨.GENERAL, "❓ General question"⟩]

/-- The tone select element of MainView offers exactly the TONE_OPTIONS
entries; choosing the option at position i yields that option value. -/
def selectToneAt (i : Nat) : Option ReplyTone :=
  (TONE_OPTIONS.get? i).map SelectOption.value

/-- The platform select element of the settings offers exactly the
PLATFORM_OPTIONS entries; choosing the option at position i yields that
option value. -/
def selectPlatformAt (i : Nat) : Option IntegrationPlatform :=
  (PLATFORM_OPTIONS.get? i).map SelectOption.value

/-- The full enumeration of ReplyTone, in declaration order. -/
def ReplyTone.all : List ReplyTone :=
  [.FORMAL, .FRIENDLY, .WARM_MOTIVATIONAL, .BRIEF_DIRECT, .ISLAMIC, .FOR_KIDS]

/-- The full enumeration of IntegrationPlatform, in declaration order. -/
def IntegrationPlatform.all : List IntegrationPlatform :=
  [.WHATSAPP, .EMAIL, .GENERIC]

/-
  Theorems.
-/

/-- C1 counterexample: the claim promises that, whatever the model call
returns, analyzeContext returns a value conforming to the three-field
schema; but on the non-empty message hi, when the model call parses to an
object without the required fields, analyzeContext returns that object
verbatim, and it does not conform. -/
theorem analyzeContext_schema_escape_cex :
    ("hi" : String) ≠ "" ∧
    analyzeContext "hi"
        (AIOutcome.parsed (Json.obj [("messageType", Json.str "Bogus")]))
      = Except.ok (Json.obj [("messageType", Json.str "Bogus")]) ∧
    conformsAnalyzedContext (Json.obj [("messageType", Json.str "Bogus")])
      = false :=
  ⟨by decide, rfl, rfl⟩

/-- C1 (amended): for every non-empty input message, analyzeContext never
raises to its caller: on a model call failure or a parse failure it
returns the fixed default, which conforms to the three-field schema, and
on a successful parse it returns the parsed value verbatim, without schema
validation, so conformance holds exactly when the parsed value conforms. -/
theorem analyzeContext_never_raises (msg : String) (h : msg ≠ "") :
    (∀ call : AIOutcome, ∃ j, analyzeContext msg call = Except.ok j) ∧
    analyzeContext msg AIOutcome.networkError
      = Except.ok defaultAnalyzedContextJson ∧
    analyzeContext msg AIOutcome.parseError
      = Except.ok defaultAnalyzedContextJson ∧
    conformsAnalyzedContext defaultAnalyzedContextJson = true ∧
    (∀ j, analyzeContext msg (AIOutcome.parsed j) = Except.ok j) := by
  refine ⟨fun call => ?_, rfl, rfl, rfl, fun j => rfl⟩
  cases call with
  | networkError => exact ⟨_, rfl⟩
  | parseError => exact ⟨_, rfl⟩
  | parsed j => exact ⟨j, rfl⟩

/-- Witness for the amended C1 theorem at the concrete message hi. -/
theorem analyzeContext_never_raises_witness :
    ("hi" : String) ≠ "" ∧
    ((∀ call : AIOutcome, ∃ j, analyzeContext "hi" call = Except.ok j) ∧
     analyzeContext "hi" AIOutcome.networkError
       = Except.ok defaultAnalyzedContextJson ∧
     analyzeContext "hi" AIOutcome.parseError
       = Except.ok defaultAnalyzedContextJson ∧
     conformsAnalyzedContext defaultAnalyzedContextJson = true ∧
     (∀ j, analyzeContext "hi" (AIOutcome.parsed j) = Except.ok j)) :=
  ⟨by decide, analyzeContext_never_raises "hi" (by decide)⟩

/-- C4 counterexample: the claim lists a schema violation among the
failures on which analyzeContext returns exactly the fixed default; but
when the model response parses to an object violating the schema, the
function returns that object, which is not the default since the default
conforms and the object does not. -/
theorem analyzeContext_default_cex :
    analyzeContext "hello"
        (AIOutcome.parsed (Json.obj [("sentiment", Json.str "Cheerful")]))
      = Except.ok (Json.obj [("sentiment", Json.str "Cheerful")]) ∧
    conformsAnalyzedContext (Json.obj [("sentiment", Json.str "Cheerful")])
      = false ∧
    analyzeContext "hello"
        (AIOutcome.parsed (Json.obj [("sentiment", Json.str "Cheerful")]))
      ≠ Except.ok defaultAnalyzedContextJson := by
  refine ⟨rfl, rfl, fun h => ?_⟩
  have h2 := congrArg
    (fun e => match e with
      | Except.ok j => conformsAnalyzedContext j
      | Except.error _ => true) h
  simp only [analyzeContext, analyzeContextBody] at h2
  exact absurd h2 (by decide)

/-- C4 (amended): on a failure of the model call or of JSON parsing,
analyzeContext returns exactly the fixed default with messageType General
question, sentiment Neutral and detectedLanguage unknown; a successfully
parsed response is returned verbatim even when it violates the schema. -/
theorem analyzeContext_default_on_failure (msg : String) :
    analyzeContext msg AIOutcome.networkError
      = Except.ok (encodeAnalyzedContext
          ⟨MessageType.GENERAL, Sentiment.NEUTRAL, DetectedLanguage.unknown⟩) ∧
    analyzeContext msg AIOutcome.parseError
      = Except.ok (encodeAnalyzedContext
          ⟨MessageType.GENERAL, Sentiment.NEUTRAL, DetectedLanguage.unknown⟩) ∧
    (∀ j, analyzeContext msg (AIOutcome.parsed j) = Except.ok j) :=
  ⟨rfl, rfl, fun j => rfl⟩

/-- C2: when the parsed model response has a missing sentences field or an
empty sentences array, generateBilingualReply raises the error with the
fixed generic message instead of returning the empty result. -/
theorem generateBilingualReply_empty_raises (msg : String) (context : Json)
    (tone : ReplyTone) (platform : IntegrationPlatform) (teacherName : String)
    (student : Option Student) (j : Json)
    (h : jsGetField j "sentences" = Except.ok none ∨
         jsGetField j "sentences" = Except.ok (some (Json.arr []))) :
    generateBilingualReply msg context tone platform teacherName student
      (AIOutcome.parsed j) = Except.error genericReplyError := by
  unfold generateBilingualReply generateBilingualReplyBody
  cases hc : jsGetField context "messageType" with
  | error e => rfl
  | ok v => rcases h with h | h <;> simp [h, jsTruthy, jsStrictEqZero, jsLengthProp]

/-- Witness for the C2 theorem: a parsed response that is an object with
no sentences field raises the generic error. -/
theorem generateBilingualReply_empty_raises_witness :
    (jsGetField (Json.obj []) "sentences" = Except.ok none ∨
     jsGetField (Json.obj []) "sentences" = Except.ok (some (Json.arr []))) ∧
    generateBilingualReply "msg" defaultAnalyzedContextJson ReplyTone.FRIENDLY
        IntegrationPlatform.WHATSAPP "Teacher" none
        (AIOutcome.parsed (Json.obj []))
      = Except.error genericReplyError :=
  ⟨Or.inl rfl,
   generateBilingualReply_empty_raises "msg" defaultAnalyzedContextJson
     ReplyTone.FRIENDLY IntegrationPlatform.WHATSAPP "Teacher" none
     (Json.obj []) (Or.inl rfl)⟩

/-- C3: every failure of generateBilingualReply raises an error carrying
the one fixed generic user-facing message: the network error case and the
parse failure case raise it, and on any model call outcome the result is
either a success or that same error. -/
theorem generateBilingualReply_single_generic_error (msg : String)
    (context : Json) (tone : ReplyTone) (platform : IntegrationPlatform)
    (teacherName : String) (student : Option Student) (call : AIOutcome) :
    generateBilingualReply msg context tone platform teacherName student
      AIOutcome.networkError = Except.error genericReplyError ∧
    generateBilingualReply msg context tone platform teacherName student
      AIOutcome.parseError = Except.error genericReplyError ∧
    ((∃ r, generateBilingualReply msg context tone platform teacherName
        student call = Except.ok r) ∨
     generateBilingualReply msg context tone platform teacherName student
       call = Except.error genericReplyError) := by
  refine ⟨?_, ?_, ?_⟩
  · unfold generateBilingualReply generateBilingualReplyBody
    cases hc : jsGetField context "messageType" <;> rfl
  · unfold generateBilingualReply generateBilingualReplyBody
    cases hc : jsGetField context "messageType" <;> rfl
  · cases hb : generateBilingualReplyBody context call with
    | ok r => exact Or.inl ⟨r, by unfold generateBilingualReply; rw [hb]⟩
    | error e => exact Or.inr (by unfold generateBilingualReply; rw [hb])

/-- C7: the tone select enumerates exactly the six ReplyTone values and the
platform select exactly the three IntegrationPlatform values, without
repetition; choosing any option position yields either nothing or one of
the enumerated values, so no unrecognized value can enter through the
select elements. -/
theorem tone_platform_options_closed :
    TONE_OPTIONS.map SelectOption.value
      = [ReplyTone.FRIENDLY, ReplyTone.WARM_MOTIVATIONAL, ReplyTone.FORMAL,
         ReplyTone.BRIEF_DIRECT, ReplyTone.ISLAMIC, ReplyTone.FOR_KIDS] ∧
    (∀ t : ReplyTone, t ∈ TONE_OPTIONS.map SelectOption.value) ∧
    (TONE_OPTIONS.map SelectOption.value).Nodup ∧
    PLATFORM_OPTIONS.map SelectOption.value
      = [IntegrationPlatform.WHATSAPP, IntegrationPlatform.EMAIL,
         IntegrationPlatform.GENERIC] ∧
    (∀ p : IntegrationPlatform, p ∈ PLATFORM_OPTIONS.map SelectOption.value) ∧
    (PLATFORM_OPTIONS.map SelectOption.value).Nodup ∧
    (∀ i, selectToneAt i = none ∨
      ∃ t, selectToneAt i = some t ∧ t ∈ ReplyTone.all) ∧
    (∀ i, selectPlatformAt i = none ∨
      ∃ p, selectPlatformAt i = some p ∧ p ∈ IntegrationPlatform.all) := by
  refine ⟨rfl, fun t => by cases t <;> decide, by decide, rfl,
    fun p => by cases p <;> decide, by decide, fun i => ?_, fun i => ?_⟩
  · match i with
    | 0 => exact Or.inr ⟨ReplyTone.FRIENDLY, rfl, by decide⟩
    | 1 => exact Or.inr ⟨ReplyTone.WARM_MOTIVATIONAL, rfl, by decide⟩
    | 2 => exact Or.inr ⟨ReplyTone.FORMAL, rfl, by decide⟩
    | 3 => exact Or.inr ⟨ReplyTone.BRIEF_DIRECT, rfl, by decide⟩
    | 4 => exact Or.inr ⟨ReplyTone.ISLAMIC, rfl, by decide⟩
    | 5 => exact Or.inr ⟨ReplyTone.FOR_KIDS, rfl, by decide⟩
    | (n + 6) => exact Or.inl rfl
  · match i with
    | 0 => exact Or.inr ⟨IntegrationPlatform.WHATSAPP, rfl, by decide⟩
    | 1 => exact Or.inr ⟨IntegrationPlatform.EMAIL, rfl, by decide⟩
    | 2 => exact Or.inr ⟨IntegrationPlatform.GENERIC, rfl, by decide⟩
    | (n + 3) => exact Or.inl rfl

/-- C8: after the Header toggles the theme through setSettings, a reload
that re-initializes useLocalStorage under the key appSettings_v3 reads
back exactly the settings object that was written, and in particular its
theme field holds the toggled theme value. -/
theorem theme_round_trip (store : Store) (current : AppSettings)
    (initialValue : Json) :
    useLocalStorageInit
        (useLocalStorageSetWith store "appSettings_v3" current toggleTheme).1
        "appSettings_v3" initialValue
      = encodeSettings (toggleTheme current) ∧
    jsGetField
        (useLocalStorageInit
          (useLocalStorageSetWith store "appSettings_v3" current toggleTheme).1
          "appSettings_v3" initialValue) "theme"
      = Except.ok (some (Json.str (toggleTheme current).theme.val)) := by
  have h1 : useLocalStorageInit
      (useLocalStorageSetWith store "appSettings_v3" current toggleTheme).1
      "appSettings_v3" initialValue
    = encodeSettings (toggleTheme current) := by
    unfold useLocalStorageInit useLocalStorageSetWith storeGet storeSet
    rw [List.find?_cons_of_pos _ (by simp)]
    rfl
  exact ⟨h1, by rw [h1]; rfl⟩

/-- C9: handleCopyToClipboard never raises to its caller on the empty
string operand, whatever the id, the language, the previous copy status
and the way the clipboard write settles. -/
theorem handleCopyToClipboard_total_on_empty (id : String) (lang : CopyLang)
    (clip : ClipboardOutcome) (copyStatus : Option (String × CopyLang)) :
    ∃ r, handleCopyToClipboard "" id lang clip copyStatus = Except.ok r := by
  cases clip with
  | fulfilled => exact ⟨_, rfl⟩
  | rejected => exact ⟨_, rfl⟩

/-- Branch equation: a blank final message takes the guard early return. -/
theorem handleGenerateReply_guard_eq (message : Option String) (st : AppState)
    (analyzeCall replyCall : AIOutcome) (tyErrMsg newTip : String)
    (hg : jsTrim (finalMessageOf message st) = "") :
    handleGenerateReply message st analyzeCall replyCall tyErrMsg newTip
      = ({ st with error := some emptyMessageError },
         [Ev.setErrorEv (some emptyMessageError)]) := by
  simp only [handleGenerateReply, if_pos hg]

/-- Branch equation: the dead branch in which the analyzer stage itself
raised. -/
theorem handleGenerateReply_analyze_error_eq (message : Option String)
    (st : AppState) (analyzeCall replyCall : AIOutcome)
    (tyErrMsg newTip m : String)
    (hg : ¬ jsTrim (finalMessageOf message st) = "")
    (hA : analyzeContext (finalMessageOf message st) analyzeCall
      = Except.error m) :
    handleGenerateReply message st analyzeCall replyCall tyErrMsg newTip
      = ({ st with
           isLoading := false,
           error := some (if m = "" then unexpectedError else m),
           replySentences := Json.arr [], toneDescription := Json.str "",
           progress := { error := some m } },
         [Ev.setLoading true, Ev.setErrorEv none,
          Ev.setReplySentencesEv (Json.arr []),
          Ev.setToneDescriptionEv (Json.str ""),
          Ev.setProgressEv { reading := some true },
          Ev.setProgressEv { reading := some false, detecting := some true },
          Ev.callAnalyze (finalMessageOf message st)]
           ++ catchEvents m ++ [Ev.setLoading false]) := by
  simp only [handleGenerateReply, if_neg hg, hA]
  rfl

/-- Branch equation: the analyzer resolved with a null context, so reading
its messageType field throws inside the try block. -/
theorem handleGenerateReply_null_context_eq (message : Option String)
    (st : AppState) (analyzeCall replyCall : AIOutcome)
    (tyErrMsg newTip : String) (ctx : Json) (u : Unit)
    (hg : ¬ jsTrim (finalMessageOf message st) = "")
    (hA : analyzeContext (finalMessageOf message st) analyzeCall
      = Except.ok ctx)
    (hM : jsGetField ctx "messageType" = Except.error u) :
    handleGenerateReply message st analyzeCall replyCall tyErrMsg newTip
      = ({ st with
           detectedContext := some ctx, isLoading := false,
           error := some (if tyErrMsg = "" then unexpectedError else tyErrMsg),
           replySentences := Json.arr [], toneDescription := Json.str "",
           progress := { error := some tyErrMsg } },
         [Ev.setLoading true, Ev.setErrorEv none,
          Ev.setReplySentencesEv (Json.arr []),
          Ev.setToneDescriptionEv (Json.str ""),
          Ev.setProgressEv { reading := some true },
          Ev.setProgressEv { reading := some false, detecting := some true },
          Ev.callAnalyze (finalMessageOf message st),
          Ev.analyzeResolved ctx, Ev.setDetectedContextEv ctx]
           ++ catchEvents tyErrMsg ++ [Ev.setLoading false]) := by
  simp only [handleGenerateReply, if_neg hg, hA, hM]
  rfl

/-- Branch equation: the reply-generation stage raised. -/
theorem handleGenerateReply_reply_error_eq (message : Option String)
    (st : AppState) (analyzeCall replyCall : AIOutcome)
    (tyErrMsg newTip m : String) (ctx : Json) (mt : Option Json)
    (hg : ¬ jsTrim (finalMessageOf message st) = "")
    (hA : analyzeContext (finalMessageOf message st) analyzeCall
      = Except.ok ctx)
    (hM : jsGetField ctx "messageType" = Except.ok mt)
    (hR : generateBilingualReply (finalMessageOf message st) ctx st.replyTone
        st.settings.platform st.settings.teacherName
        (List.find? (fun s => st.selectedStudentId == some s.id) st.students)
        replyCall
      = Except.error m) :
    handleGenerateReply message st analyzeCall replyCall tyErrMsg newTip
      = ({ st with
           detectedContext := some ctx, messageType := mt, isLoading := false,
           error := some (if m = "" then unexpectedError else m),
           replySentences := Json.arr [], toneDescription := Json.str "",
           progress := { error := some m } },
         [Ev.setLoading true, Ev.setErrorEv none,
          Ev.setReplySentencesEv (Json.arr []),
          Ev.setToneDescriptionEv (Json.str ""),
          Ev.setProgressEv { reading := some true },
          Ev.setProgressEv { reading := some false, detecting := some true },
          Ev.callAnalyze (finalMessageOf message st),
          Ev.analyzeResolved ctx, Ev.setDetectedContextEv ctx,
          Ev.setMessageTypeEv mt,
          Ev.setProgressEv { reading := some false, detecting := some false,
                             drafting := some true },
          Ev.callGenerate (finalMessageOf message st) ctx]
           ++ catchEvents m ++ [Ev.setLoading false]) := by
  simp only [handleGenerateReply, if_neg hg, hA, hM, hR]
  rfl

/-- Branch equation: the fully successful invocation. -/
theorem handleGenerateReply_success_eq (message : Option String)
    (st : AppState) (analyzeCall replyCall : AIOutcome)
    (tyErrMsg newTip : String) (ctx : Json) (mt : Option Json)
    (result : GeneratedReply)
    (hg : ¬ jsTrim (finalMessageOf message st) = "")
    (hA : analyzeContext (finalMessageOf message st) analyzeCall
      = Except.ok ctx)
    (hM : jsGetField ctx "messageType" = Except.ok mt)
    (hR : generateBilingualReply (finalMessageOf message st) ctx st.replyTone
        st.settings.platform st.settings.teacherName
        (List.find? (fun s => st.selectedStudentId == some s.id) st.students)
        replyCall
      = Except.ok result) :
    handleGenerateReply message st analyzeCall replyCall tyErrMsg newTip
      = ({ st with
           detectedContext := some ctx, messageType := mt, isLoading := false,
           error := none, replySentences := result.sentences,
           toneDescription := result.toneDescription, currentTip := newTip,
           progress := { reading := some false, detecting := some false,
                         drafting := some false, done := some true } },
         [Ev.setLoading true, Ev.setErrorEv none,
          Ev.setReplySentencesEv (Json.arr []),
          Ev.setToneDescriptionEv (Json.str ""),
          Ev.setProgressEv { reading := some true },
          Ev.setProgressEv { reading := some false, detecting := some true },
          Ev.callAnalyze (finalMessageOf message st),
          Ev.analyzeResolved ctx, Ev.setDetectedContextEv ctx,
          Ev.setMessageTypeEv mt,
          Ev.setProgressEv { reading := some false, detecting := some false,
                             drafting := some true },
          Ev.callGenerate (finalMessageOf message st) ctx,
          Ev.setProgressEv { reading := some false, detecting := some false,
                             drafting := some false, done := some true },
          Ev.setReplySentencesEv result.sentences,
          Ev.setToneDescriptionEv result.toneDescription,
          Ev.setCurrentTipEv, Ev.setLoading false]) := by
  simp only [handleGenerateReply, if_neg hg, hA, hM, hR]
  rfl

/-- C5: within one handleGenerateReply invocation the two pipeline stages
run strictly sequentially: whenever the trace starts the reply-generation
call with some context value, the analyzer stage resolved strictly earlier
in the trace with that very value, that value is exactly what
analyzeContext returned for the invocation message, and the
reply-generation call receives the invocation message. -/
theorem pipeline_sequential (message : Option String) (st : AppState)
    (analyzeCall replyCall : AIOutcome) (tyErrMsg newTip : String)
    (m : String) (c : Json)
    (h : Ev.callGenerate m c
      ∈ (handleGenerateReply message st analyzeCall replyCall tyErrMsg newTip).2) :
    m = finalMessageOf message st ∧
    analyzeContext (finalMessageOf message st) analyzeCall = Except.ok c ∧
    ∃ l₁ l₂,
      (handleGenerateReply message st analyzeCall replyCall tyErrMsg newTip).2
        = l₁ ++ Ev.analyzeResolved c :: l₂ ∧ Ev.callGenerate m c ∈ l₂ := by
  by_cases hg : jsTrim (finalMessageOf message st) = ""
  · rw [handleGenerateReply_guard_eq message st analyzeCall replyCall
      tyErrMsg newTip hg] at h
    simp at h
  · rcases hA : analyzeContext (finalMessageOf message st) analyzeCall
      with m2 | ctx
    · rw [handleGenerateReply_analyze_error_eq message st analyzeCall
        replyCall tyErrMsg newTip m2 hg hA] at h
      simp [catchEvents] at h
    · rcases hM : jsGetField ctx "messageType" with u | mt
      · rw [handleGenerateReply_null_context_eq message st analyzeCall
          replyCall tyErrMsg newTip ctx u hg hA hM] at h
        simp [catchEvents] at h
      · rcases hR : generateBilingualReply (finalMessageOf message st) ctx
            st.replyTone st.settings.platform st.settings.teacherName
            (List.find? (fun s => st.selectedStudentId == some s.id)
              st.students) replyCall
          with m2 | result
        · rw [handleGenerateReply_reply_error_eq message st analyzeCall
            replyCall tyErrMsg newTip m2 ctx mt hg hA hM hR] at h ⊢
          simp [catchEvents] at h
          obtain ⟨hm, hc⟩ := h
          subst hm; subst hc
          refine ⟨rfl, rfl, ?_⟩
          refine ⟨[Ev.setLoading true, Ev.setErrorEv none,
            Ev.setReplySentencesEv (Json.arr []),
            Ev.setToneDescriptionEv (Json.str ""),
            Ev.setProgressEv { reading := some true },
            Ev.setProgressEv { reading := some false, detecting := some true },
            Ev.callAnalyze (finalMessageOf message st)], _, rfl, ?_⟩
          simp
        · rw [handleGenerateReply_success_eq message st analyzeCall
            replyCall tyErrMsg newTip ctx mt result hg hA hM hR] at h ⊢
          simp at h
          obtain ⟨hm, hc⟩ := h
          subst hm; subst hc
          refine ⟨rfl, rfl, ?_⟩
          refine ⟨[Ev.setLoading true, Ev.setErrorEv none,
            Ev.setReplySentencesEv (Json.arr []),
            Ev.setToneDescriptionEv (Json.str ""),
            Ev.setProgressEv { reading := some true },
            Ev.setProgressEv { reading := some false, detecting := some true },
            Ev.callAnalyze (finalMessageOf message st)], _, rfl, ?_⟩
          simp

/-- C6: within one invocation the progress state either stays idle (the
blank-message guard) or advances reading, detecting, drafting, done in
that order; when the invocation fails, the error progress state is entered
exactly from the detecting stage or from the drafting stage, never from
idle, reading or done. -/
theorem progress_state_machine (message : Option String) (st : AppState)
    (analyzeCall replyCall : AIOutcome) (tyErrMsg newTip : String) :
    progressSets
        (handleGenerateReply message st analyzeCall replyCall tyErrMsg newTip).2
      = [] ∨
    progressSets
        (handleGenerateReply message st analyzeCall replyCall tyErrMsg newTip).2
      = [progressReading, progressDetecting, progressDrafting, progressDone] ∨
    (∃ m, progressSets
        (handleGenerateReply message st analyzeCall replyCall tyErrMsg newTip).2
      = [progressReading, progressDetecting, progressError m]) ∨
    (∃ m, progressSets
        (handleGenerateReply message st analyzeCall replyCall tyErrMsg newTip).2
      = [progressReading, progressDetecting, progressDrafting,
         progressError m]) := by
  by_cases hg : jsTrim (finalMessageOf message st) = ""
  · rw [handleGenerateReply_guard_eq message st analyzeCall replyCall
      tyErrMsg newTip hg]
    exact Or.inl rfl
  · rcases hA : analyzeContext (finalMessageOf message st) analyzeCall
      with m2 | ctx
    · rw [handleGenerateReply_analyze_error_eq message st analyzeCall
        replyCall tyErrMsg newTip m2 hg hA]
      exact Or.inr (Or.inr (Or.inl ⟨m2, rfl⟩))
    · rcases hM : jsGetField ctx "messageType" with u | mt
      · rw [handleGenerateReply_null_context_eq message st analyzeCall
          replyCall tyErrMsg newTip ctx u hg hA hM]
        exact Or.inr (Or.inr (Or.inl ⟨tyErrMsg, rfl⟩))
      · rcases hR : generateBilingualReply (finalMessageOf message st) ctx
            st.replyTone st.settings.platform st.settings.teacherName
            (List.find? (fun s => st.selectedStudentId == some s.id)
              st.students) replyCall
          with m2 | result
        · rw [handleGenerateReply_reply_error_eq message st analyzeCall
            replyCall tyErrMsg newTip m2 ctx mt hg hA hM hR]
          exact Or.inr (Or.inr (Or.inr ⟨m2, rfl⟩))
        · rw [handleGenerateReply_success_eq message st analyzeCall
            replyCall tyErrMsg newTip ctx mt result hg hA hM hR]
          exact Or.inr (Or.inl rfl)

/-- The invariant of C10 on the App state: whenever the progress error
state is set, the displayed reply sentence list is the cleared empty
array. -/
def errStateNoReply (st : AppState) : Prop :=
  ∀ e, st.progress.error = some e → st.replySentences = Json.arr []

/-- C10: every invocation preserves the invariant that the progress error
state never coexists with a non-empty reply sentence list, and whenever an
invocation contacted the model (so the clearing of reply, tone and error
had run), an invocation that ends with the error message set has the
cleared empty reply list: an error and a generated reply from the same
invocation are never displayed together. -/
theorem error_state_reply_cleared (message : Option String) (st : AppState)
    (analyzeCall replyCall : AIOutcome) (tyErrMsg newTip : String)
    (hInv : errStateNoReply st) :
    errStateNoReply
      (handleGenerateReply message st analyzeCall replyCall tyErrMsg newTip).1 ∧
    ((∃ m2, Ev.callAnalyze m2
        ∈ (handleGenerateReply message st analyzeCall replyCall tyErrMsg newTip).2) →
      ∀ e, (handleGenerateReply message st analyzeCall replyCall tyErrMsg newTip).1.error
          = some e →
        (handleGenerateReply message st analyzeCall replyCall tyErrMsg newTip).1.replySentences
          = Json.arr []) := by
  by_cases hg : jsTrim (finalMessageOf message st) = ""
  · rw [handleGenerateReply_guard_eq message st analyzeCall replyCall
      tyErrMsg newTip hg]
    refine ⟨fun e he => hInv e he, ?_⟩
    rintro ⟨m2, hm2⟩
    simp at hm2
  · rcases hA : analyzeContext (finalMessageOf message st) analyzeCall
      with m2 | ctx
    · rw [handleGenerateReply_analyze_error_eq message st analyzeCall
        replyCall tyErrMsg newTip m2 hg hA]
      exact ⟨fun e he => rfl, fun _ e he => rfl⟩
    · rcases hM : jsGetField ctx "messageType" with u | mt
      · rw [handleGenerateReply_null_context_eq message st analyzeCall
          replyCall tyErrMsg newTip ctx u hg hA hM]
        exact ⟨fun e he => rfl, fun _ e he => rfl⟩
      · rcases hR : generateBilingualReply (finalMessageOf message st) ctx
            st.replyTone st.settings.platform st.settings.teacherName
            (List.find? (fun s => st.selectedStudentId == some s.id)
              st.students) replyCall
          with m2 | result
        · rw [handleGenerateReply_reply_error_eq message st analyzeCall
            replyCall tyErrMsg newTip m2 ctx mt hg hA hM hR]
          exact ⟨fun e he => rfl, fun _ e he => rfl⟩
        · rw [handleGenerateReply_success_eq message st analyzeCall
            replyCall tyErrMsg newTip ctx mt result hg hA hM hR]
          exact ⟨fun e he => Option.noConfusion he,
            fun _ e he => Option.noConfusion he⟩

/-- A concrete App state used by the witnesses below. -/
def witnessState : AppState where
  studentMessage := "hello"
  selectedStudentId := none
  messageType := none
  replyTone := ReplyTone.FRIENDLY
  settings :=
    { teacherName := "Teacher", signature := "",
      platform := IntegrationPlatform.WHATSAPP, theme := Theme.dark }
  students := []
  detectedContext := none
  isLoading := false
  progress := {}
  error := none
  replySentences := Json.arr []
  toneDescription := Json.str ""
  currentTip := ""

/-- A concrete well-formed reply object used by the witnesses below. -/
def goodReplyJson : Json :=
  .obj [("sentences",
          .arr [.obj [("englishSentence", .str "Hi."),
                      ("arabicSentence", .str "Ahlan.")]]),
        ("toneDescription", .str "⭐ Warm")]

/-- Witness for the C5 theorem: a concrete successful invocation whose
trace contains the reply-generation call. -/
theorem pipeline_sequential_witness :
    Ev.callGenerate "hello" defaultAnalyzedContextJson
      ∈ (handleGenerateReply (some "hello") witnessState
          (AIOutcome.parsed defaultAnalyzedContextJson)
          (AIOutcome.parsed goodReplyJson) "TypeError" "tip").2 ∧
    ("hello" : String) = finalMessageOf (some "hello") witnessState ∧
    analyzeContext (finalMessageOf (some "hello") witnessState)
        (AIOutcome.parsed defaultAnalyzedContextJson)
      = Except.ok defaultAnalyzedContextJson ∧
    ∃ l₁ l₂,
      (handleGenerateReply (some "hello") witnessState
          (AIOutcome.parsed defaultAnalyzedContextJson)
          (AIOutcome.parsed goodReplyJson) "TypeError" "tip").2
        = l₁ ++ Ev.analyzeResolved defaultAnalyzedContextJson :: l₂ ∧
      Ev.callGenerate "hello" defaultAnalyzedContextJson ∈ l₂ := by
  have htr : (handleGenerateReply (some "hello") witnessState
      (AIOutcome.parsed defaultAnalyzedContextJson)
      (AIOutcome.parsed goodReplyJson) "TypeError" "tip").2
    = [Ev.setLoading true, Ev.setErrorEv none,
       Ev.setReplySentencesEv (Json.arr []),
       Ev.setToneDescriptionEv (Json.str ""),
       Ev.setProgressEv { reading := some true },
       Ev.setProgressEv { reading := some false, detecting := some true },
       Ev.callAnalyze "hello",
       Ev.analyzeResolved defaultAnalyzedContextJson,
       Ev.setDetectedContextEv defaultAnalyzedContextJson,
       Ev.setMessageTypeEv (some (Json.str "General question")),
       Ev.setProgressEv { reading := some false, detecting := some false,
                          drafting := some true },
       Ev.callGenerate "hello" defaultAnalyzedContextJson,
       Ev.setProgressEv { reading := some false, detecting := some false,
                          drafting := some false, done := some true },
       Ev.setReplySentencesEv
         (.arr [.obj [("englishSentence", .str "Hi."),
                      ("arabicSentence", .str "Ahlan.")]]),
       Ev.setToneDescriptionEv (.str "⭐ Warm"),
       Ev.setCurrentTipEv, Ev.setLoading false] := rfl
  have hmem : Ev.callGenerate "hello" defaultAnalyzedContextJson
      ∈ (handleGenerateReply (some "hello") witnessState
          (AIOutcome.parsed defaultAnalyzedContextJson)
          (AIOutcome.parsed goodReplyJson) "TypeError" "tip").2 := by
    rw [htr]; simp
  exact ⟨hmem, pipeline_sequential (some "hello") witnessState
    (AIOutcome.parsed defaultAnalyzedContextJson)
    (AIOutcome.parsed goodReplyJson) "TypeError" "tip" "hello"
    defaultAnalyzedContextJson hmem⟩

/-- Witness for the C10 theorem: a concrete invocation whose reply stage
fails, applied from a state satisfying the invariant. -/
theorem error_state_reply_cleared_witness :
    errStateNoReply
      (handleGenerateReply (some "hello") witnessState
        (AIOutcome.parsed defaultAnalyzedContextJson) AIOutcome.networkError
        "TypeError" "tip").1 ∧
    ((∃ m2, Ev.callAnalyze m2
        ∈ (handleGenerateReply (some "hello") witnessState
            (AIOutcome.parsed defaultAnalyzedContextJson)
            AIOutcome.networkError "TypeError" "tip").2) →
      ∀ e, (handleGenerateReply (some "hello") witnessState
            (AIOutcome.parsed defaultAnalyzedContextJson)
            AIOutcome.networkError "TypeError" "tip").1.error = some e →
        (handleGenerateReply (some "hello") witnessState
            (AIOutcome.parsed defaultAnalyzedContextJson)
            AIOutcome.networkError "TypeError" "tip").1.replySentences
          = Json.arr []) :=
  error_state_reply_cleared (some "hello") witnessState
    (AIOutcome.parsed defaultAnalyzedContextJson) AIOutcome.networkError
    "TypeError" "tip" (fun e he => Option.noConfusion he)

end TeacherAssistant
